import Mathlib

/-!
Verification development for the carta-electiva-api search-and-scoring core.

The Python sources are embedded shallowly:
* NumPy float arithmetic is modelled over `ℚ`; all the elementwise array
  operations of the vectorized modules are embedded as per-instant functions
  (the vectorized loops in the source are pure elementwise computations, so a
  per-index embedding is semantics-preserving).
* Python dicts keyed by SwissEph integer body ids are modelled as total
  functions `ℤ → ℚ` together with the explicit key set `bodies` where the
  source tests membership, or as association lists where the source iterates.
* External providers (SwissEph ephemeris and house geometry) are oracle
  parameters: the engine is verified for every possible provider output.
* Display-only rounding (Python `round(x, 1)`) is omitted; no claim below
  depends on it.
-/

namespace CartaElectiva

/-- Python / NumPy modulo for a positive modulus: `x % m = x - m * ⌊x / m⌋`
(result in `[0, m)` for `m > 0`, matching Python float `%`). -/
def pymod (x m : ℚ) : ℚ := x - m * ⌊x / m⌋

/-- Python `int(x)` applied to a float: truncation toward zero. -/
def pytrunc (x : ℚ) : ℤ := if 0 ≤ x then ⌊x⌋ else -⌊-x⌋

/-! ## `core/vectorized_logic.py` — VectorizedLogic -/

/-- Traditional rulerships, `vectorized_logic.py` `RULER_MAP` (sign ↦ planet). -/
def RULER_MAP : List (ℤ × ℤ) :=
  [(0, 4), (1, 3), (2, 2), (3, 1), (4, 0), (5, 2),
   (6, 3), (7, 4), (8, 5), (9, 6), (10, 6), (11, 5)]

/-- Exaltations, `EXALTATION_MAP` (planet ↦ sign); `.get` on the dict is
rendered as an `Option`-valued chain of key tests. -/
def exaltation_sign (pid : ℤ) : Option ℤ :=
  if pid = 0 then some 0
  else if pid = 1 then some 1
  else if pid = 2 then some 5
  else if pid = 3 then some 11
  else if pid = 4 then some 9
  else if pid = 5 then some 3
  else if pid = 6 then some 6
  else none

/-- The signs a planet rules (the comprehension
`[s for s, p in RULER_MAP.items() if p == planet_id]`). -/
def ruled_signs (pid : ℤ) : List ℤ :=
  (RULER_MAP.filter (fun q => q.2 == pid)).map Prod.fst

/-- Embeds `DETRIMENT_MAP` as built in `VectorizedLogic.__init__`: for each sign a
planet rules, the opposite sign `(sign + 6) % 12`. -/
def detriment_signs (pid : ℤ) : List ℤ :=
  (RULER_MAP.filter (fun q => q.2 == pid)).map (fun q => (q.1 + 6) % 12)

/-- Embeds `FALL_MAP` as built in `__init__`: opposite of the exaltation sign. -/
def fall_sign (pid : ℤ) : Option ℤ :=
  (exaltation_sign pid).map (fun s => (s + 6) % 12)

/-- Embeds `TRIPLICITY_RULERS` (sign ↦ ruler list); `.get(s, [])`. -/
def triplicity_rulers (s : ℤ) : List ℤ :=
  if s = 0 ∨ s = 4 ∨ s = 8 then [0, 5, 6]
  else if s = 1 ∨ s = 5 ∨ s = 9 then [3, 1, 4]
  else if s = 2 ∨ s = 6 ∨ s = 10 then [6, 2, 5]
  else if s = 3 ∨ s = 7 ∨ s = 11 then [3, 4, 1]
  else []

/-- Embeds `TERMS_MAP` (sign ↦ list of (upper degree bound, term ruler)); `.get(s, [])`. -/
def terms_map (s : ℤ) : List (ℚ × ℤ) :=
  if s = 0 then [(6, 5), (12, 3), (20, 2), (25, 4), (30, 6)]
  else if s = 1 then [(8, 3), (14, 2), (22, 5), (27, 6), (30, 4)]
  else if s = 2 then [(6, 2), (12, 5), (17, 3), (24, 4), (30, 6)]
  else if s = 3 then [(7, 4), (13, 3), (19, 2), (26, 5), (30, 6)]
  else if s = 4 then [(6, 5), (11, 3), (18, 6), (24, 2), (30, 4)]
  else if s = 5 then [(7, 2), (17, 3), (21, 5), (28, 4), (30, 6)]
  else if s = 6 then [(6, 6), (14, 3), (21, 5), (28, 2), (30, 4)]
  else if s = 7 then [(7, 4), (11, 3), (19, 2), (24, 5), (30, 6)]
  else if s = 8 then [(12, 5), (17, 3), (21, 2), (26, 6), (30, 4)]
  else if s = 9 then [(7, 2), (14, 5), (22, 3), (26, 6), (30, 4)]
  else if s = 10 then [(7, 2), (13, 3), (20, 5), (25, 4), (30, 6)]
  else if s = 11 then [(12, 3), (16, 5), (19, 2), (28, 4), (30, 6)]
  else []

/-- Embeds `get_ruler_for_sign`: `RULER_MAP.get(sign_index, 0)`. -/
def get_ruler_for_sign (s : ℤ) : ℤ := ((RULER_MAP.lookup s).getD 0)

/-- Embeds `get_sign_indices` elementwise: `(longitude // 30).astype(int) % 12`
(NumPy floor division, then Python-style nonnegative integer modulo). -/
def sign_index (x : ℚ) : ℤ := ⌊x / 30⌋ % 12

/-- Embeds `mask_signs` elementwise: the longitude's sign is in the forbidden set. -/
def mask_signs (x : ℚ) (forbidden : List ℤ) : Bool :=
  decide (sign_index x ∈ forbidden)

/-- Embeds `calculate_aspects` elementwise: minimal circular separation
`min(|a − b|, 360 − |a − b|)`. -/
def calculate_aspects (a b : ℚ) : ℚ := min |a - b| (360 - |a - b|)

/-- Embeds `mask_exact_aspect` elementwise. -/
def mask_exact_aspect (a b angle orb : ℚ) : Bool :=
  decide (|calculate_aspects a b - angle| ≤ orb)

/-- Embeds `mask_dignity`'s `good_signs`: ruled signs plus the exaltation sign. -/
def good_signs (pid : ℤ) : List ℤ := ruled_signs pid ++ (exaltation_sign pid).toList

/-- Embeds `mask_dignity` elementwise: planet occupies a ruled or exaltation sign. -/
def mask_dignity (pid : ℤ) (x : ℚ) : Bool := decide (sign_index x ∈ good_signs pid)

/-- Embeds `mask_debility`'s `bad_signs`: detriment signs plus the fall sign. -/
def bad_signs (pid : ℤ) : List ℤ := detriment_signs pid ++ (fall_sign pid).toList

/-- Embeds `mask_debility` elementwise: planet occupies a detriment or fall sign. -/
def mask_debility (pid : ℤ) (x : ℚ) : Bool := decide (sign_index x ∈ bad_signs pid)

/-- Embeds `mask_phase` elementwise: new or full Moon within `orb`. -/
def mask_phase (sun moon orb : ℚ) : Bool :=
  let d := calculate_aspects sun moon
  decide (d ≤ orb) || decide (|d - 180| ≤ orb)

/-- Bodies scanned by the void-of-course check (`target_bodies` in
`mask_void_of_course`). -/
def voc_target_bodies : List ℤ := [0, 2, 3, 4, 5, 6]

/-- Canonical aspect angles used by the void-of-course check. -/
def voc_major_aspects : List ℚ := [0, 60, 90, 120, 180]

/-- Embeds `mask_void_of_course` elementwise.  `planet_long` is the transiting
longitude dictionary and `available` its key set (`if pid not in
planet_positions: continue`).  The Moon is void unless some target body,
aspect angle and target point `p ± asp (mod 360)` lies forward of the Moon by
less than the distance to the next sign ingress. -/
def mask_void_of_course (moon : ℚ) (planet_long : ℤ → ℚ) (available : List ℤ) : Bool :=
  let current_sign_start : ℚ := (⌊moon / 30⌋ : ℤ) * 30
  let dist_to_ingress := current_sign_start + 30 - moon
  let aspect_found := voc_target_bodies.any fun pid =>
    decide (pid ∈ available) &&
      (voc_major_aspects.any fun asp =>
        [pymod (planet_long pid + asp) 360, pymod (planet_long pid - asp) 360].any
          fun target => decide (pymod (target - moon) 360 < dist_to_ingress))
  !aspect_found

/-! ## `core/astro_config.py` — AstroConfig -/

/-- Embeds `AstroConfig.ORB_MOON_PHASE`. -/
def ORB_MOON_PHASE : ℚ := 8

/-- Embeds `AstroConfig.get_orb`. -/
def get_orb (angle : ℚ) : ℚ :=
  if angle = 0 then 8
  else if angle = 180 then 8
  else if angle = 120 then 8
  else if angle = 90 then 8
  else if angle = 60 then 6
  else 1

/-! ## `core/vectorized_natal.py` — VectorizedNatal -/

/-- Embeds `mask_transiting_aspect` elementwise (transit array vs fixed natal point). -/
def mask_transiting_aspect (transit natal angle orb : ℚ) : Bool :=
  decide (|min |transit - natal| (360 - |transit - natal|) - angle| ≤ orb)

/-- Hard angles scanned by `mask_hard_aspects_to_natal_lights`
(`[90, 180]` with `0` appended). -/
def natal_hard_angles : List ℚ := [90, 180, 0]

/-- Embeds `mask_hard_aspects_to_natal_lights` elementwise: some malefic present in
the transit dictionary makes a hard aspect (orb from `get_orb`) to a natal
luminary (Sun or Moon) present in the natal chart. -/
def mask_hard_aspects_to_natal_lights (transit_long : ℤ → ℚ) (available : List ℤ)
    (natal_chart : List (ℤ × ℚ)) (malefics : List ℤ) : Bool :=
  malefics.any fun malefic =>
    decide (malefic ∈ available) &&
      (([0, 1] : List ℤ).any fun light =>
        match natal_chart.lookup light with
        | none => false
        | some n_long =>
            natal_hard_angles.any fun angle =>
              mask_transiting_aspect (transit_long malefic) n_long angle (get_orb angle))

/-! ## `core/theme_config.py` and `config/temas_casas.py` -/

/-- Embeds `theme_config.py` `ThemeConfig`. -/
structure ThemeConfig where
  target_house : ℕ
  natural_ruler : Option ℤ
  secondary_house : Option ℕ
  name_es : String
deriving Repr, DecidableEq

/-- The `"trabajo"` entry of `THEMES`. -/
def trabajo_theme : ThemeConfig :=
  { target_house := 10, natural_ruler := some 6, secondary_house := some 6,
    name_es := "Trabajo y Carrera" }

/-- Embeds `theme_config.py` `THEMES`. -/
def THEMES : List (String × ThemeConfig) :=
  [("trabajo", trabajo_theme),
   ("lanzamiento", { target_house := 10, natural_ruler := some 4,
                     secondary_house := some 1, name_es := "Lanzamiento de Proyecto" }),
   ("amor", { target_house := 7, natural_ruler := some 3,
              secondary_house := some 5, name_es := "Amor y Pareja" }),
   ("dinero", { target_house := 2, natural_ruler := some 5,
                secondary_house := some 8, name_es := "Dinero e Inversiones" }),
   ("viaje", { target_house := 9, natural_ruler := some 5,
               secondary_house := some 3, name_es := "Viajes y Extranjero" }),
   ("inmobiliaria", { target_house := 4, natural_ruler := some 1,
                      secondary_house := none, name_es := "Bienes Raíces y Hogar" })]

/-- Python `str.lower()`, modelled over the character sequence (the built-in
`String.toLower` is not kernel-reducible; for the ASCII topic keys used here
the two agree). -/
def py_lower (s : String) : String := String.mk (s.data.map Char.toLower)

/-- Embeds `get_theme_config`: `THEMES.get(theme_name.lower(), THEMES["trabajo"])`. -/
def get_theme_config (theme_name : String) : ThemeConfig :=
  (THEMES.lookup (py_lower theme_name)).getD trabajo_theme

/-- Embeds `temas_casas.py` `TEMAS_CASAS` (topic ↦ house). -/
def TEMAS_CASAS : List (String × ℕ) :=
  [("trabajo", 10), ("amor", 7), ("viajes", 9), ("salud", 6), ("dinero", 2),
   ("estudios", 3), ("familia", 4), ("creatividad", 5), ("amistades", 11),
   ("espiritualidad", 12)]

/-- Embeds `get_casa_for_tema`: raises `ValueError` on an unknown topic, rendered as
`Except.error`. -/
def get_casa_for_tema (tema : String) : Except String ℕ :=
  match TEMAS_CASAS.lookup tema with
  | none => Except.error ("Tema " ++ tema ++ " no reconocido")
  | some casa => Except.ok casa

/-! ## `utils/scc_calculator.py` — SCC_Calculator -/

/-- Embeds `ENRAIZAMIENTO_MIN`. -/
def ENRAIZAMIENTO_MIN : ℚ := -6

/-- Embeds `ENRAIZAMIENTO_MAX`. -/
def ENRAIZAMIENTO_MAX : ℚ := 10

/-- Embeds `ENRAIZAMIENTO_RANGO`. -/
def ENRAIZAMIENTO_RANGO : ℚ := ENRAIZAMIENTO_MAX - ENRAIZAMIENTO_MIN

/-- Embeds `UMBRAL_MINIMO_RECOMENDABLE`. -/
def UMBRAL_MINIMO_RECOMENDABLE : ℚ := 40

/-- Embeds `_calcular_componente_absoluto`. -/
def calcular_componente_absoluto (puntos : ℚ) : ℚ :=
  if puntos ≤ ENRAIZAMIENTO_MIN then 0
  else if ENRAIZAMIENTO_MAX ≤ puntos then 100
  else (puntos - ENRAIZAMIENTO_MIN) / ENRAIZAMIENTO_RANGO * 100

/-- The scan loop of `_calcular_componente_relativo`: walk the sorted
reference values with running index `i` (and the previous value `prev`,
only consulted when `i ≥ 1`), stopping at the first value `≥ puntos`;
`n` is the length of the full sorted list. -/
def rel_scan (n : ℕ) : ℕ → ℚ → ℚ → List ℚ → ℚ
  | _, _, _, [] => 100
  | i, prev, p, v :: rest =>
    if p ≤ v then
      if i = 0 then 0
      else if p = v then ((i : ℚ) / n) * 100
      else if v ≠ prev then ((((i : ℚ) - 1) + (p - prev) / (v - prev)) / n) * 100
      else ((i : ℚ) / n) * 100
    else rel_scan n (i + 1) v p rest

/-- Embeds `_calcular_componente_relativo`: in-batch percentile by
sorted-interpolation (the initial `prev` value is irrelevant: the scan never
reads it while `i = 0`). -/
def calcular_componente_relativo (puntos : ℚ) (valores_referencia : List ℚ) : ℚ :=
  if valores_referencia = [] then 50
  else rel_scan valores_referencia.length 0 0 puntos
    (List.insertionSort (· ≤ ·) valores_referencia)

/-- Embeds `_estimar_percentil_aproximado`: fixed coarse percentile ladder. -/
def estimar_percentil_aproximado (puntos : ℚ) : ℚ :=
  if 3 ≤ puntos then 95
  else if 2 ≤ puntos then 85
  else if 1 ≤ puntos then 70
  else if 0 ≤ puntos then 50
  else if -2 ≤ puntos then 30
  else 10

/-- Embeds `_asignar_categoria_scc`. -/
def asignar_categoria_scc (scc : ℚ) (recomendable : Bool) : String :=
  if !recomendable then "NO RECOMENDABLE"
  else if 75 ≤ scc then "EXCEPCIONAL"
  else if 65 ≤ scc then "SOBRE PROMEDIO"
  else if 50 ≤ scc then "PROMEDIO"
  else if 40 ≤ scc then "DEBAJO PROMEDIO"
  else "LIMITADO"

/-- Result record of `calcular_scc` (the dict it returns; the display-only
`round(—, 1)` on the three percentage fields is omitted). -/
structure SCCResult where
  scc : ℚ
  absoluto_pct : ℚ
  relativo_pct : ℚ
  recomendable : Bool
  categoria : String
deriving Repr, DecidableEq

/-- Embeds `calcular_scc`.  The Python guard
`if valores_referencia and len(valores_referencia) > 1` (truthiness of the
list, then its length) is rendered literally. -/
def calcular_scc (enraizamiento_puntos : ℚ) (valores_referencia : List ℚ) : SCCResult :=
  let absoluto_pct := calcular_componente_absoluto enraizamiento_puntos
  let relativo_pct :=
    if valores_referencia ≠ [] ∧ 1 < valores_referencia.length then
      calcular_componente_relativo enraizamiento_puntos valores_referencia
    else estimar_percentil_aproximado enraizamiento_puntos
  let scc := absoluto_pct * (0.8 : ℚ) + relativo_pct * (0.2 : ℚ)
  let recomendable := decide (UMBRAL_MINIMO_RECOMENDABLE ≤ scc)
  { scc := scc, absoluto_pct := absoluto_pct, relativo_pct := relativo_pct,
    recomendable := recomendable,
    categoria := asignar_categoria_scc scc recomendable }

/-! ## `core/vectorized_scoring.py` — VectorizedScoring

All four scorers are elementwise over the instant grid; they are embedded per
instant.  Each returns `(total, details)`; in the source every detail
component is also added to the running total, so the total is the sum of the
detail values. -/

/-- The body set requested by `find_elections`
(`bodies = [0, 1, 2, 3, 4, 5, 6, 10]`; `10` is the mean lunar node). -/
def engine_bodies : List ℤ := [0, 1, 2, 3, 4, 5, 6, 10]

/-- The seven classical planets looped over by `calculate_ruler_score`
(`for pid in range(7)`). -/
def seven_planets : List ℤ := [0, 1, 2, 3, 4, 5, 6]

/-- House membership test shared by all scorers (the repeated inline blocks
`case_normal / in_house_normal / in_house_cross`): the point is in house
`h_idx` (0-based) when it lies between cusp `h_idx` and cusp `(h_idx+1) % 12`,
with the wrap-around case when the cusp pair crosses 0°. -/
def in_house (cusp : ℕ → ℚ) (h_idx : ℕ) (p : ℚ) : Bool :=
  let cusp_start := cusp h_idx
  let cusp_end := cusp ((h_idx + 1) % 12)
  if cusp_start < cusp_end then decide (cusp_start ≤ p) && decide (p < cusp_end)
  else decide (cusp_start ≤ p) || decide (p < cusp_end)

/-- The gather `get_ruler_positions` in `calculate_moon_score`: position of
the ruler of the sign `s`, or 0 when that ruler is not among the available
bodies (`if pid not in planet_longs: continue` over a zero-initialised
array). -/
def ruler_position (s : ℤ) (planet_long : ℤ → ℚ) (available : List ℤ) : ℚ :=
  let pid := get_ruler_for_sign s
  if pid ∈ available then planet_long pid else 0

/-- The `score_aspect` helper of `calculate_moon_score`: one point component
for a Moon aspect to a planet, with orb 8 for conjunctions and 6 otherwise;
absent when the planet is not in the longitude dictionary. -/
def moon_score_aspect (moon : ℚ) (planet_long : ℤ → ℚ) (available : List ℤ)
    (pid : ℤ) (angle points : ℚ) (name : String) : List (String × ℚ) :=
  if pid ∈ available then
    let orb : ℚ := if angle = 0 then 8 else 6
    [(name, if mask_exact_aspect moon (planet_long pid) angle orb then points else 0)]
  else []

/-- Embeds `calculate_moon_score` elementwise: detail components in source order. -/
def calculate_moon_score_details (moon sun : ℚ) (planet_long : ℤ → ℚ)
    (available : List ℤ) (cusp : ℕ → ℚ) (asc : ℚ) : List (String × ℚ) :=
  let signs := sign_index moon
  let diff_sun_moon := pymod (moon - sun) 360
  let ruler_asc_pos := ruler_position (sign_index asc) planet_long available
  let ruler_h10_pos := ruler_position (sign_index (cusp 9)) planet_long available
  let score_ruler := fun (pos : ℚ) =>
    (if mask_exact_aspect moon pos 0 8 then (2 : ℚ) else 0) +
    (if mask_exact_aspect moon pos 60 6 then (2 : ℚ) else 0) +
    (if mask_exact_aspect moon pos 120 6 then (2 : ℚ) else 0)
  [("moon_cancer", if signs = 3 then (1 : ℚ) else 0),
   ("moon_taurus", if signs = 1 then (1 : ℚ) else 0),
   ("moon_waxing", if 0 < diff_sun_moon ∧ diff_sun_moon < 180 then (1 : ℚ) else 0)]
  ++ moon_score_aspect moon planet_long available 5 120 1 "moon_trine_jup"
  ++ moon_score_aspect moon planet_long available 5 60 1 "moon_sext_jup"
  ++ moon_score_aspect moon planet_long available 5 0 1 "moon_conj_jup"
  ++ moon_score_aspect moon planet_long available 3 120 1 "moon_trine_ven"
  ++ moon_score_aspect moon planet_long available 3 60 1 "moon_sext_ven"
  ++ moon_score_aspect moon planet_long available 3 0 1 "moon_conj_ven"
  ++ moon_score_aspect moon planet_long available 0 120 1 "moon_trine_sun"
  ++ moon_score_aspect moon planet_long available 0 60 1 "moon_sext_sun"
  ++ [("moon_favorable_house",
        if ([4, 8, 9, 10] : List ℕ).any (fun h => in_house cusp h moon) then (1 : ℚ) else 0),
      ("moon_aspect_ruler_asc", score_ruler ruler_asc_pos),
      ("moon_aspect_ruler_h10", score_ruler ruler_h10_pos)]

/-- Embeds `calculate_moon_score` total. -/
def calculate_moon_score (moon sun : ℚ) (planet_long : ℤ → ℚ)
    (available : List ℤ) (cusp : ℕ → ℚ) (asc : ℚ) : ℚ :=
  ((calculate_moon_score_details moon sun planet_long available cusp asc).map
    Prod.snd).sum

/-- The term-bound scan of `calculate_ruler_score`: walk the `(bound, ruler)`
list with the running lower bound `prev` and look for a segment ruled by
`pid` that contains `deg`. -/
def term_scan (pid : ℤ) (deg : ℚ) : ℚ → List (ℚ × ℤ) → Bool
  | _, [] => false
  | prev, (b, r) :: rest =>
    (decide (r = pid) && decide (prev ≤ deg) && decide (deg < b)) ||
      term_scan pid deg b rest

/-- Embeds `calculate_ruler_score` elementwise (details in source order).  Notes on
the vectorized source: the `for pid in range(7)` loops mean all dignity bits
stay false when the per-instant ruler id is outside 0‥6; the triplicity
assignment is guarded by the *unmodded* floor `ruler_longs // 30 == s`, which
for an element can only match its own (mod 12) sign when the floor is already
in 0‥11; the first term loop ends in `pass` and contributes nothing; the
engine always passes `ruler_speeds`, so the `is not None` guard is taken. -/
def calculate_ruler_score_details (prefix_name : String) (ruler_long : ℚ)
    (ruler_id : ℤ) (sun : ℚ) (planet_long : ℤ → ℚ) (available : List ℤ)
    (cusp : ℕ → ℚ) (ruler_speed : ℚ) : List (String × ℚ) :=
  let s0 := sign_index ruler_long
  let in_range7 := decide (ruler_id ∈ seven_planets)
  let is_dom := in_range7 && decide (s0 ∈ ruled_signs ruler_id)
  let is_exalt := in_range7 && decide (exaltation_sign ruler_id = some s0)
  let is_trip := in_range7 && decide (ruler_id ∈ triplicity_rulers s0) &&
    decide (⌊ruler_long / 30⌋ = s0)
  let is_term := in_range7 && term_scan ruler_id (pymod ruler_long 30) 0 (terms_map s0)
  let aspect_points := fun (pid : ℤ) =>
    (if mask_exact_aspect ruler_long (planet_long pid) 0 8 then (1 : ℚ) else 0) +
    (if mask_exact_aspect ruler_long (planet_long pid) 60 6 then (1 : ℚ) else 0) +
    (if mask_exact_aspect ruler_long (planet_long pid) 120 6 then (1 : ℚ) else 0)
  [(prefix_name ++ "_domicile", if is_dom then (1 : ℚ) else 0),
   (prefix_name ++ "_exaltation", if is_exalt then (1 : ℚ) else 0),
   (prefix_name ++ "_triplicity", if is_trip then (0.5 : ℚ) else 0),
   (prefix_name ++ "_term", if is_term then (0.5 : ℚ) else 0),
   (prefix_name ++ "_direct", if 0 < ruler_speed then (1 : ℚ) else 0),
   (prefix_name ++ "_not_combust",
     if 17 < calculate_aspects ruler_long sun then (1 : ℚ) else 0),
   (prefix_name ++ "_fav_house",
     if ([0, 9, 10, 8, 4] : List ℕ).any (fun h => in_house cusp h ruler_long)
     then (1 : ℚ) else 0)]
  ++ (if (5 : ℤ) ∈ available then [(prefix_name ++ "_aspect_jupiter", aspect_points 5)] else [])
  ++ (if (3 : ℤ) ∈ available then [(prefix_name ++ "_aspect_venus", aspect_points 3)] else [])

/-- Embeds `calculate_ruler_score` total. -/
def calculate_ruler_score (prefix_name : String) (ruler_long : ℚ) (ruler_id : ℤ)
    (sun : ℚ) (planet_long : ℤ → ℚ) (available : List ℤ) (cusp : ℕ → ℚ)
    (ruler_speed : ℚ) : ℚ :=
  ((calculate_ruler_score_details prefix_name ruler_long ruler_id sun planet_long
      available cusp ruler_speed).map Prod.snd).sum

/-- The `score_natal_aspect` helper of `calculate_natal_score`: aspects of an
electional point to one natal position (all orbs 5), absent when the natal
chart lacks the body. -/
def natal_aspect_detail (elect_point : ℚ) (natal_chart : List (ℤ × ℚ)) (pid : ℤ)
    (points_conj points_trine points_sext : ℚ) (name : String) : List (String × ℚ) :=
  match natal_chart.lookup pid with
  | none => []
  | some nat_pos =>
      [(name,
        (if mask_exact_aspect elect_point nat_pos 0 5 then points_conj else 0) +
        (if mask_exact_aspect elect_point nat_pos 120 5 then points_trine else 0) +
        (if mask_exact_aspect elect_point nat_pos 60 5 then points_sext else 0))]

/-- Embeds `calculate_natal_score` elementwise details ( `if not natal_chart: return`
gives the empty list for an empty chart). -/
def calculate_natal_score_details (asc mc : ℚ)
    (natal_chart : List (ℤ × ℚ)) : List (String × ℚ) :=
  if natal_chart = [] then []
  else
    (match natal_chart.lookup 6 with
     | none => []
     | some sat_nat =>
        [("natal_asc_conj_sat",
          if mask_exact_aspect asc sat_nat 0 5 then (-2 : ℚ) else 0)])
    ++ (match natal_chart.lookup 4 with
        | none => []
        | some mar_nat =>
           [("natal_asc_conj_mar",
             if mask_exact_aspect asc mar_nat 0 5 then (-2 : ℚ) else 0)])
    ++ natal_aspect_detail asc natal_chart 0 1 1 1 "natal_asc_sun"
    ++ natal_aspect_detail asc natal_chart 1 1 1 1 "natal_asc_moon"
    ++ natal_aspect_detail asc natal_chart 3 1 1 1 "natal_asc_ven"
    ++ natal_aspect_detail asc natal_chart 5 1 1 1 "natal_asc_jup"
    ++ natal_aspect_detail asc natal_chart 12 2 1 1 "natal_asc_asc"
    ++ natal_aspect_detail mc natal_chart 0 1 0 0 "natal_mc_conj_sun"
    ++ natal_aspect_detail mc natal_chart 1 1 0 0 "natal_mc_conj_moon"
    ++ natal_aspect_detail mc natal_chart 3 1 0 0 "natal_mc_conj_ven"
    ++ natal_aspect_detail mc natal_chart 5 1 0 0 "natal_mc_conj_jup"

/-- Embeds `calculate_natal_score` total. -/
def calculate_natal_score (asc mc : ℚ) (natal_chart : List (ℤ × ℚ)) : ℚ :=
  ((calculate_natal_score_details asc mc natal_chart).map Prod.snd).sum

/-- Embeds `calculate_combinations_score` elementwise details.  The occupancy tests
are written exactly as in the source: `is_in_h10` reads cusp columns 9 and 10
(house 10) and the Saturn/Mars "in ASC" tests read cusp columns 0 and 1
(house 1) — these column indices are fixed, independent of the search topic.
The unused `ascmc` parameter of the source is dropped. -/
def calculate_combinations_score_details (ruler_asc_long ruler_h10_long : ℚ)
    (planet_long : ℤ → ℚ) (available : List ℤ) (cusp : ℕ → ℚ)
    (natal_asc_sign : Option ℤ) : List (String × ℚ) :=
  let rulers_aspect :=
    mask_exact_aspect ruler_asc_long ruler_h10_long 0 8 ||
    mask_exact_aspect ruler_asc_long ruler_h10_long 60 6 ||
    mask_exact_aspect ruler_asc_long ruler_h10_long 120 6
  let is_in_h10 := fun (p : ℚ) => in_house cusp 9 p
  let is_in_h1 := fun (p : ℚ) => in_house cusp 0 p
  let skip_saturn := match natal_asc_sign with
    | some s => decide (s = 9 ∨ s = 10)
    | none => false
  let skip_mars := match natal_asc_sign with
    | some s => decide (s = 0 ∨ s = 7)
    | none => false
  [("comb_pos_rulers_aspect", if rulers_aspect then (2 : ℚ) else 0)]
  ++ (if (0 : ℤ) ∈ available then
        [("comb_pos_sun_h10", if is_in_h10 (planet_long 0) then (2 : ℚ) else 0)] else [])
  ++ (if (5 : ℤ) ∈ available then
        [("comb_pos_jup_h10", if is_in_h10 (planet_long 5) then (2 : ℚ) else 0)] else [])
  ++ (if (1 : ℤ) ∈ available then
        [("comb_pos_moon_h10", if is_in_h10 (planet_long 1) then (2 : ℚ) else 0)] else [])
  ++ (if !skip_saturn ∧ (6 : ℤ) ∈ available then
        [("comb_neg_saturn_h10", if is_in_h10 (planet_long 6) then (-1 : ℚ) else 0),
         ("comb_neg_saturn_asc", if is_in_h1 (planet_long 6) then (-1 : ℚ) else 0)]
      else [])
  ++ (if !skip_mars ∧ (4 : ℤ) ∈ available then
        [("comb_neg_mars_h10", if is_in_h10 (planet_long 4) then (-1 : ℚ) else 0),
         ("comb_neg_mars_asc", if is_in_h1 (planet_long 4) then (-1 : ℚ) else 0)]
      else [])

/-- Embeds `calculate_combinations_score` total. -/
def calculate_combinations_score (ruler_asc_long ruler_h10_long : ℚ)
    (planet_long : ℤ → ℚ) (available : List ℤ) (cusp : ℕ → ℚ)
    (natal_asc_sign : Option ℤ) : ℚ :=
  ((calculate_combinations_score_details ruler_asc_long ruler_h10_long planet_long
      available cusp natal_asc_sign).map Prod.snd).sum

/-- Modelled from the spec (§4.5, combinations group), for refinement
comparison only: "+2 if the Ascendant ruler and topic-house ruler aspect each
other (conjunction/sextile/trine); +2 each if Sun, Jupiter, or Moon occupies
the *topic house*; −1 each if Saturn occupies the *topic house* or the
Ascendant house, unless the natal Ascendant sign is one Saturn rules; the
same −1/−1 pattern for Mars, skipped when the natal Ascendant sign is one
Mars rules."  Occupancy is tested against the topic's target house
(`target_house`, 1-based) and the Ascendant house (house 1); everything else
(orbs, availability guards) is kept identical to the code so that any
difference isolates which house the occupancy tests use. -/
def combinations_score_per_spec (target_house : ℕ) (ruler_asc_long ruler_h10_long : ℚ)
    (planet_long : ℤ → ℚ) (available : List ℤ) (cusp : ℕ → ℚ)
    (natal_asc_sign : Option ℤ) : ℚ :=
  let rulers_aspect :=
    mask_exact_aspect ruler_asc_long ruler_h10_long 0 8 ||
    mask_exact_aspect ruler_asc_long ruler_h10_long 60 6 ||
    mask_exact_aspect ruler_asc_long ruler_h10_long 120 6
  let in_topic_house := fun (p : ℚ) => in_house cusp (target_house - 1) p
  let in_asc_house := fun (p : ℚ) => in_house cusp 0 p
  let saturn_ruled := match natal_asc_sign with
    | some s => decide (s = 9 ∨ s = 10)
    | none => false
  let mars_ruled := match natal_asc_sign with
    | some s => decide (s = 0 ∨ s = 7)
    | none => false
  (if rulers_aspect then (2 : ℚ) else 0) +
  (if (0 : ℤ) ∈ available ∧ in_topic_house (planet_long 0) then (2 : ℚ) else 0) +
  (if (5 : ℤ) ∈ available ∧ in_topic_house (planet_long 5) then (2 : ℚ) else 0) +
  (if (1 : ℤ) ∈ available ∧ in_topic_house (planet_long 1) then (2 : ℚ) else 0) +
  (if saturn_ruled = false ∧ (6 : ℤ) ∈ available ∧ in_topic_house (planet_long 6)
   then (-1 : ℚ) else 0) +
  (if saturn_ruled = false ∧ (6 : ℤ) ∈ available ∧ in_asc_house (planet_long 6)
   then (-1 : ℚ) else 0) +
  (if mars_ruled = false ∧ (4 : ℤ) ∈ available ∧ in_topic_house (planet_long 4)
   then (-1 : ℚ) else 0) +
  (if mars_ruled = false ∧ (4 : ℤ) ∈ available ∧ in_asc_house (planet_long 4)
   then (-1 : ℚ) else 0)

/-! ## `core/election_engine.py` — VectorizedElectionFinder.find_elections

Timestamps are rationals measured in minutes; the source works in seconds via
`total_seconds() / (interval_minutes * 60)` and `timedelta(minutes=
i * interval_minutes)`, which divides out to the same grid.  The per-instant
data produced by the external SwissEph ephemeris/house providers is an oracle
`ℕ → Inst` (index on the grid ↦ chart data). -/

/-- Per-instant chart data: transiting longitudes and longitudinal speeds by
body id, the 12 house cusps (0-based columns of the `cusps` matrix) and the
Ascendant/Midheaven columns of `ascmc`. -/
structure Inst where
  long : ℤ → ℚ
  speed : ℤ → ℚ
  cusp : ℕ → ℚ
  asc : ℚ
  mc : ℚ

/-- The instant grid of `find_elections`:
`total_intervals = int(total_seconds / (interval_minutes * 60))`, then
`[start + i * interval_minutes for i in range(total_intervals)]`. -/
def time_grid (start_dt end_dt : ℚ) (interval_minutes : ℕ) : List ℚ :=
  let total_intervals := (pytrunc ((end_dt - start_dt) / (interval_minutes : ℚ))).toNat
  (List.range total_intervals).map
    (fun (i : ℕ) => start_dt + (i : ℚ) * (interval_minutes : ℚ))

/-- The combined rejection mask of `find_elections` for one instant:
`is_bad_moon | is_bad_ruler | is_bad_natal | is_malefic_on_angle`.

`is_bad_natal` is identically `False` in the source: the call to
`mask_hard_aspects_to_natal_lights` is commented out ("To strictly respect
'Original Logic', we disable this check by default") and the array is
reassigned to zeros, so it is embedded as the literal `false`. -/
def moment_rejected (inst : Inst) (target_house : ℕ) : Bool :=
  let moon := inst.long 1
  let sun := inst.long 0
  let is_bad_moon :=
    mask_signs moon [7, 9] || mask_phase sun moon ORB_MOON_PHASE ||
      mask_void_of_course moon inst.long engine_bodies
  let cusp_sign := sign_index (inst.cusp (target_house - 1))
  let ruler_id := get_ruler_for_sign cusp_sign
  let is_bad_ruler :=
    mask_debility ruler_id (inst.long ruler_id) || decide (inst.speed ruler_id < 0)
  let is_bad_natal := false
  let dsc := pymod (inst.asc + 180) 360
  let ic := pymod (inst.mc + 180) 360
  let is_malefic_on_angle := ([4, 6] : List ℤ).any fun malefic_id =>
    ([inst.asc, inst.mc, dsc, ic] : List ℚ).any fun angle =>
      decide (min |inst.long malefic_id - angle| (360 - |inst.long malefic_id - angle|) ≤ 5)
  is_bad_moon || is_bad_ruler || is_bad_natal || is_malefic_on_angle

/-- The per-group scores and merged detail dictionary computed by
`find_elections` for one instant. -/
structure Scores where
  moon : ℚ
  r_asc : ℚ
  r_h10 : ℚ
  natal : ℚ
  comb : ℚ
  all_details : List (String × ℚ)

/-- Score aggregation of `find_elections` for one instant.  The dynamic
ruler gather loops (`for sign_idx in range(12)` populating `ruler_asc_*` and
`ruler_h10_*`) are elementwise: the ruler of the Ascendant sign, and of the
sign on the target house's cusp, looked up directly.  `natal_asc_sign` is
always `None` in the engine (`natal_asc_sign = None`). -/
def compute_scores (inst : Inst) (target_house : ℕ) (natal_chart : List (ℤ × ℚ)) : Scores :=
  let moon := inst.long 1
  let sun := inst.long 0
  let ruler_asc_id := get_ruler_for_sign (sign_index inst.asc)
  let ruler_asc_long := inst.long ruler_asc_id
  let ruler_h10_id := get_ruler_for_sign (sign_index (inst.cusp (target_house - 1)))
  let ruler_h10_long := inst.long ruler_h10_id
  let details_moon := calculate_moon_score_details moon sun inst.long engine_bodies inst.cusp inst.asc
  let details_r_asc := calculate_ruler_score_details "ruler_asc" ruler_asc_long ruler_asc_id
    sun inst.long engine_bodies inst.cusp (inst.speed ruler_asc_id)
  let details_r_h10 := calculate_ruler_score_details "ruler_h10" ruler_h10_long ruler_h10_id
    sun inst.long engine_bodies inst.cusp (inst.speed ruler_h10_id)
  let details_natal := calculate_natal_score_details inst.asc inst.mc natal_chart
  let details_comb := calculate_combinations_score_details ruler_asc_long ruler_h10_long
    inst.long engine_bodies inst.cusp none
  { moon := (details_moon.map Prod.snd).sum,
    r_asc := (details_r_asc.map Prod.snd).sum,
    r_h10 := (details_r_h10.map Prod.snd).sum,
    natal := (details_natal.map Prod.snd).sum,
    comb := (details_comb.map Prod.snd).sum,
    all_details := details_moon ++ details_r_asc ++ details_r_h10 ++ details_natal ++ details_comb }

/-- Embeds `total_score = score_moon + score_r_asc + score_r_h10 + score_natal + score_comb`. -/
def Scores.total (s : Scores) : ℚ := s.moon + s.r_asc + s.r_h10 + s.natal + s.comb

/-- One result row of `find_elections` (the dict appended to `results`).
`score_normalized`, `norm_general` and `norm_natal` are kept unrounded
(the source applies a display-only `round(—, 1)`). -/
structure Row where
  timestamp : ℚ
  is_valid : Bool
  flags : List String
  moon_sign : ℤ
  score_total : ℚ
  score_general : ℚ
  score_natal : ℚ
  score_positive : ℚ
  score_negative : ℚ
  score_normalized : ℚ
  norm_general : ℚ
  norm_natal : ℚ
  label : String
  stars : ℕ
  score_moon : ℚ
  score_r_asc : ℚ
  score_r_h10 : ℚ
  score_comb : ℚ
  components : List (String × ℚ)
deriving Inhabited

/-- Row construction of `find_elections` for one processed index:
positive/negative aggregation, the 70/30 hybrid UX normalization
(`MAX_GEN = 30`, `MAX_NAT = 10`), semantic labels, and the sparse non-zero
component map (`abs(val) > 0.001`). -/
def build_row (inst : Inst) (t : ℚ) (target_house : ℕ) (natal_chart : List (ℤ × ℚ))
    (is_valid_moment : Bool) : Row :=
  let s := compute_scores inst target_house natal_chart
  let total_score := s.total
  let s_natal := s.natal
  let s_general := total_score - s_natal
  let norm_gen := min (max ((s_general / 30) * 100) 0) 100
  let norm_nat := min (max ((s_natal / 10) * 100) 0) 100
  let score_hybrid := norm_gen * (0.7 : ℚ) + norm_nat * (0.3 : ℚ)
  let label_stars : String × ℕ :=
    if 80 ≤ score_hybrid then ("Excelente", 5)
    else if 60 ≤ score_hybrid then ("Muy Bueno", 4)
    else if 40 ≤ score_hybrid then ("Bueno", 3)
    else if 20 ≤ score_hybrid then ("Regular", 2)
    else ("Pobre", 1)
  { timestamp := t,
    is_valid := is_valid_moment,
    flags := if is_valid_moment then [] else ["rejected"],
    moon_sign := ⌊inst.long 1 / 30⌋,
    score_total := total_score,
    score_general := s_general,
    score_natal := s_natal,
    score_positive := (s.all_details.map (fun kv => max kv.2 0)).sum,
    score_negative := (s.all_details.map (fun kv => min kv.2 0)).sum,
    score_normalized := score_hybrid,
    norm_general := norm_gen,
    norm_natal := norm_nat,
    label := label_stars.1,
    stars := label_stars.2,
    score_moon := s.moon,
    score_r_asc := s.r_asc,
    score_r_h10 := s.r_h10,
    score_comb := s.comb,
    components := s.all_details.filter (fun kv => decide ((0.001 : ℚ) < |kv.2|)) }

/-- The uncaught exception `find_elections` hits on an empty instant grid:
the very first pipeline step converts the (size-0) time array with
`np.vectorize` in `vectorized_ephemeris.py` `_convert_times_to_jd`, which
raises `ValueError` on size-0 input without `otypes`; further down the same
path the logging f-string `len(valid_indices)/len(times_arr)*100` in
`election_engine.py` would raise `ZeroDivisionError`.  Nothing catches
either, so an empty grid makes the search raise instead of returning an
empty result. -/
def empty_grid_error : String :=
  "ValueError: cannot call vectorize on size 0 inputs unless otypes is set"

/-- Embeds `find_elections`.  `chart_at` is the oracle giving the ephemeris/house
provider output at each grid index; `natal_chart = None` is the empty list.
On an empty grid the pipeline raises (`empty_grid_error`); otherwise, with
`return_all` every grid index is processed, else only the non-rejected ones
(`indices_to_process`). -/
def find_elections (start_dt end_dt : ℚ) (interval_minutes : ℕ) (chart_at : ℕ → Inst)
    (natal_chart : List (ℤ × ℚ)) (topic : String) (return_all : Bool) :
    Except String (List Row) :=
  let config := get_theme_config topic
  let grid := time_grid start_dt end_dt interval_minutes
  if grid = [] then Except.error empty_grid_error
  else
    let rejected := fun i => moment_rejected (chart_at i) config.target_house
    let indices_to_process :=
      if return_all then List.range grid.length
      else (List.range grid.length).filter (fun i => !rejected i)
    Except.ok (indices_to_process.map (fun i =>
      build_row (chart_at i) (grid.getD i 0) config.target_house natal_chart (!rejected i)))

/-! ## `core/vectorized_ephemeris.py` — VectorizedEphemeris -/

/-- The zero fallback record `np.zeros((len(jds), 6))`. -/
def zeros_record (n : ℕ) : List (List ℚ) :=
  List.replicate n (List.replicate 6 (0 : ℚ))

/-- The `try`-wrapped per-body list comprehension of `calculate_positions`:
the external provider `swe.calc_ut` is the oracle
`provider : body ↦ julian day ↦ Option row` (`none` = the call raised), and
`to_jd` is the calendar-to-Julian-day conversion oracle.  The whole per-body
list comprehension sits inside one `try`, so a failure anywhere in the batch
zero-fills that body's entire record; every requested body gets an entry. -/
def try_batch (g : ℚ → Option (List ℚ)) : List ℚ → Option (List (List ℚ))
  | [] => some []
  | jd :: rest =>
    match g jd, try_batch g rest with
    | some row, some rows => some (row :: rows)
    | _, _ => none

/-- Embeds `calculate_positions` proper: one entry per requested body, zero-filled
on failure (`try_batch` is the `try`-wrapped list comprehension). -/
def calculate_positions (provider : ℤ → ℚ → Option (List ℚ)) (to_jd : ℚ → ℚ)
    (times : List ℚ) (bodies : List ℤ) : List (ℤ × List (List ℚ)) :=
  let jds := times.map to_jd
  bodies.map (fun body =>
    (body, match try_batch (provider body) jds with
           | some body_data => body_data
           | none => zeros_record jds.length))

/-! ## `core/algoritmo_busqueda.py` — AlgoritmoBusqueda, Fase 2

`_fase_2_enraizamiento` evaluates each promising moment through
`_procesar_momento_paralelo` (modelled as the oracle `proc`, `none` = not
apt / error), applies the SCC, sorts by the two-level key `(scc,
puntuacion_total)` descending and truncates to `MAX_RESULTADOS_FINALES`.
The thread pool's completion-order collection is modelled as submission
order; the properties proved below are invariant under the collection
permutation.  Timestamps (`fecha_hora`) are rationals in seconds. -/

/-- Embeds `config/settings.py` `MAX_RESULTADOS_FINALES`. -/
def MAX_RESULTADOS_FINALES : ℕ := 25

/-- A processed moment dict produced by `_procesar_momento_paralelo`.
`enraizamiento_puro` models `detalles['enraizamiento_puro']['puntos_total']`
when that nested entry is present. -/
structure Momento where
  fecha_hora : ℚ
  puntuacion_total : ℚ
  enraizamiento_score : ℚ
  enraizamiento_puro : Option ℚ
deriving Repr

/-- Embeds `_extraer_enraizamiento_puro`: the nested `detalles` value when present,
else the `enraizamiento_score` rescaled when it lies in `[0, 1]`, else 0. -/
def extraer_enraizamiento_puro (m : Momento) : ℚ :=
  match m.enraizamiento_puro with
  | some v => v
  | none =>
      if 0 ≤ m.enraizamiento_score ∧ m.enraizamiento_score ≤ 1 then
        (m.enraizamiento_score - 0.5) * 8
      else 0

/-- A moment with the SCC fields added by `procesar_momentos_con_scc`. -/
structure MomentoSCC extends Momento where
  scc : ℚ
  scc_absoluto_pct : ℚ
  scc_relativo_pct : ℚ
  scc_categoria : String
  scc_recomendable : Bool
deriving Repr

instance : Inhabited MomentoSCC :=
  ⟨{ fecha_hora := 0, puntuacion_total := 0, enraizamiento_score := 0,
     enraizamiento_puro := none, scc := 0, scc_absoluto_pct := 0,
     scc_relativo_pct := 0, scc_categoria := "", scc_recomendable := false }⟩

/-- Embeds `SCC_Calculator.procesar_momentos_con_scc`. -/
def procesar_momentos_con_scc (momentos : List Momento) : List MomentoSCC :=
  let valores_enraizamiento := momentos.map extraer_enraizamiento_puro
  momentos.map (fun m =>
    let scc_data := calcular_scc (extraer_enraizamiento_puro m) valores_enraizamiento
    { toMomento := m, scc := scc_data.scc,
      scc_absoluto_pct := scc_data.absoluto_pct,
      scc_relativo_pct := scc_data.relativo_pct,
      scc_categoria := scc_data.categoria,
      scc_recomendable := scc_data.recomendable })

/-- The descending two-level sort order of Fase 2
(`sort(key=lambda x: (x.get('scc', 0), x['puntuacion_total']), reverse=True)`). -/
def fase_2_orden (x y : MomentoSCC) : Prop :=
  y.scc < x.scc ∨ (y.scc = x.scc ∧ y.puntuacion_total ≤ x.puntuacion_total)

instance : DecidableRel fase_2_orden := fun x y => by
  unfold fase_2_orden; infer_instance

instance : IsTotal MomentoSCC fase_2_orden :=
  ⟨fun x y => by
    unfold fase_2_orden
    rcases lt_trichotomy x.scc y.scc with h | h | h
    · exact Or.inr (Or.inl h)
    · rcases le_total y.puntuacion_total x.puntuacion_total with h2 | h2
      · exact Or.inl (Or.inr ⟨h.symm, h2⟩)
      · exact Or.inr (Or.inr ⟨h, h2⟩)
    · exact Or.inl (Or.inl h)⟩

instance : IsTrans MomentoSCC fase_2_orden :=
  ⟨fun a b c hab hbc => by
    unfold fase_2_orden at *
    rcases hab with h1 | ⟨h1, h1'⟩ <;> rcases hbc with h2 | ⟨h2, h2'⟩
    · exact Or.inl (h2.trans h1)
    · exact Or.inl (h2 ▸ h1)
    · exact Or.inl (h1 ▸ h2)
    · exact Or.inr ⟨h1 ▸ h2, h2'.trans h1'⟩⟩

/-- Embeds `_fase_2_enraizamiento` (post-evaluation pipeline): collect the processed
moments, apply the SCC, sort descending by `(scc, puntuacion_total)`, truncate
to `MAX_RESULTADOS_FINALES`.  No deduplication step appears here:
`_eliminar_duplicados_por_tiempo` has no caller in the module. -/
def fase_2_enraizamiento (proc : ℚ → Option Momento)
    (momentos_prometedores : List ℚ) : List MomentoSCC :=
  let momentos_enraizados := momentos_prometedores.filterMap proc
  let momentos_con_scc := procesar_momentos_con_scc momentos_enraizados
  (List.insertionSort fase_2_orden momentos_con_scc).take MAX_RESULTADOS_FINALES

/-- Embeds `datetime.replace(second=0, microsecond=0)` on a timestamp in seconds:
truncation to the containing minute. -/
def redondear_a_minuto (t : ℚ) : ℚ := 60 * (⌊t / 60⌋ : ℤ)

/-! ## Helper lemmas -/

/-- No sign is both a dignity sign (domicile/exaltation) and a debility sign
(detriment/fall) of the same planet, for every planet id. -/
lemma good_bad_disjoint (pid s : ℤ)
    (h1 : s ∈ good_signs pid) (h2 : s ∈ bad_signs pid) : False := by
  rw [good_signs, List.mem_append] at h1
  rcases h1 with hr | he
  · rw [ruled_signs] at hr
    simp only [RULER_MAP, List.mem_map, List.mem_filter, List.mem_cons,
      List.not_mem_nil, or_false, beq_iff_eq] at hr
    obtain ⟨q, ⟨hq, hqp⟩, hqs⟩ := hr
    rcases hq with rfl | rfl | rfl | rfl | rfl | rfl | rfl | rfl | rfl | rfl | rfl | rfl <;>
      · rw [← hqp, ← hqs] at h2
        exact absurd h2 (by decide)
  · rw [exaltation_sign] at he
    split_ifs at he with e0 e1 e2 e3 e4 e5 e6 <;>
      simp only [Option.toList_some, Option.toList_none, List.mem_singleton,
        List.not_mem_nil] at he
    · subst e0; subst he; exact absurd h2 (by decide)
    · subst e1; subst he; exact absurd h2 (by decide)
    · subst e2; subst he; exact absurd h2 (by decide)
    · subst e3; subst he; exact absurd h2 (by decide)
    · subst e4; subst he; exact absurd h2 (by decide)
    · subst e5; subst he; exact absurd h2 (by decide)
    · subst e6; subst he; exact absurd h2 (by decide)

/-- Truncation and floor agree after clamping to `ℕ`. -/
lemma pytrunc_toNat (x : ℚ) : (pytrunc x).toNat = (⌊x⌋).toNat := by
  rw [pytrunc]
  split_ifs with h
  · rfl
  · push_neg at h
    have h1 : ⌊x⌋ < 0 := Int.floor_lt.mpr (by simpa using h)
    have h2 : 0 ≤ ⌊-x⌋ := Int.floor_nonneg.mpr (by linarith)
    omega

/-! ## Claim theorems -/

/-- C7: for every body identifier and every longitude, the dignity mask and
the debility mask are never both true: no sign is simultaneously in a body's
domicile/exaltation set and in its detriment/fall set under the static
rulership, exaltation, detriment and fall tables. -/
theorem dignity_debility_disjoint (pid : ℤ) (x : ℚ) :
    (mask_dignity pid x && mask_debility pid x) = false := by
  cases hd : mask_dignity pid x with
  | false => rw [Bool.false_and]
  | true =>
      cases hb : mask_debility pid x with
      | false => rw [Bool.and_false]
      | true =>
          rw [mask_dignity, decide_eq_true_eq] at hd
          rw [mask_debility, decide_eq_true_eq] at hb
          exact (good_bad_disjoint pid (sign_index x) hd hb).elim

/-- C5: the contextual score is the blend
`0.8 * absolute_pct + 0.2 * relative_pct`, where the absolute component is
the clamped linear map of the raw points from the range `[-6, 10]` onto
`[0, 100]`, the relative component is the in-batch percentile exactly when
the reference batch has at least 2 points (otherwise the fixed coarse
ladder), and the candidate is marked recommendable exactly when the blend
reaches the fixed threshold 40. -/
theorem scc_blend_formula (p : ℚ) (V : List ℚ) :
    (calcular_scc p V).scc
        = 0.8 * calcular_componente_absoluto p
            + 0.2 * (if 2 ≤ V.length then calcular_componente_relativo p V
                     else estimar_percentil_aproximado p)
      ∧ calcular_componente_absoluto p
          = max 0 (min 100 ((p - (-6)) / (10 - (-6)) * 100))
      ∧ ((calcular_scc p V).recomendable = true ↔ 40 ≤ (calcular_scc p V).scc) := by
  have hiff : (V ≠ [] ∧ 1 < V.length) ↔ 2 ≤ V.length := by
    constructor
    · rintro ⟨-, h⟩; omega
    · intro h
      refine ⟨?_, by omega⟩
      intro hnil
      rw [hnil] at h
      simp at h
  refine ⟨?_, ?_, ?_⟩
  · simp only [calcular_scc]
    by_cases h : 2 ≤ V.length
    · rw [if_pos (hiff.mpr h), if_pos h]; ring
    · rw [if_neg (fun hc => h (hiff.mp hc)), if_neg h]; ring
  · have hform : (p - (-6)) / (10 - (-6)) * 100 = (p + 6) * (25 / 4) := by ring
    rw [hform]
    simp only [calcular_componente_absoluto, ENRAIZAMIENTO_RANGO,
      ENRAIZAMIENTO_MIN, ENRAIZAMIENTO_MAX]
    split_ifs with hl hr
    · have hx : (p + 6) * (25 / 4 : ℚ) ≤ 0 := by nlinarith
      rw [min_eq_right (by linarith), max_eq_left (by linarith)]
    · have hx : (100 : ℚ) ≤ (p + 6) * (25 / 4) := by nlinarith
      rw [min_eq_left hx]
      norm_num
    · push_neg at hl hr
      have hx0 : (0 : ℚ) ≤ (p + 6) * (25 / 4) := by nlinarith
      have hx1 : (p + 6) * (25 / 4 : ℚ) ≤ 100 := by nlinarith
      rw [min_eq_right hx1, max_eq_right hx0]
      ring
  · simp only [calcular_scc, UMBRAL_MINIMO_RECOMENDABLE, decide_eq_true_eq]

/-- C10 amended: with a positive step of `m` minutes, the instant grid is
exactly `start + k*m` for `k ∈ [0, ⌊(end − start)/m⌋)`; `end` itself is never
on the grid; when `end − start` is an exact positive multiple of the step the
last instant is `end − m`; and a range shorter than one step yields an empty
grid — on which the search does *not* return an empty result but raises
(`empty_grid_error`: the size-0 `np.vectorize` call, and further down the
division by `len(times_arr)` in the logging f-string).  Timestamps are in
minutes. -/
theorem time_grid_props (start_dt end_dt : ℚ) (m : ℕ) (hm : 0 < m) :
    time_grid start_dt end_dt m
        = (List.range (⌊(end_dt - start_dt) / (m : ℚ)⌋).toNat).map
            (fun (k : ℕ) => start_dt + (k : ℚ) * (m : ℚ))
      ∧ end_dt ∉ time_grid start_dt end_dt m
      ∧ (∀ j : ℕ, end_dt - start_dt = (j : ℚ) * (m : ℚ) → 1 ≤ j →
          (time_grid start_dt end_dt m).getLast? = some (end_dt - m))
      ∧ (end_dt - start_dt < m →
          time_grid start_dt end_dt m = []
            ∧ ∀ (chart_at : ℕ → Inst) (natal : List (ℤ × ℚ)) (topic : String)
                (ra : Bool),
                find_elections start_dt end_dt m chart_at natal topic ra
                  = Except.error empty_grid_error) := by
  have hmq : (0 : ℚ) < (m : ℚ) := by exact_mod_cast hm
  have hgrid : time_grid start_dt end_dt m
      = (List.range (⌊(end_dt - start_dt) / (m : ℚ)⌋).toNat).map
          (fun (k : ℕ) => start_dt + (k : ℚ) * (m : ℚ)) := by
    rw [time_grid, pytrunc_toNat]
  refine ⟨hgrid, ?_, ?_, ?_⟩
  · intro hmem
    rw [hgrid] at hmem
    simp only [List.mem_map, List.mem_range] at hmem
    obtain ⟨k, hk, hkeq⟩ := hmem
    have hdiff : end_dt - start_dt = (k : ℚ) * (m : ℚ) := by linarith
    have hdiv : (end_dt - start_dt) / (m : ℚ) = (k : ℚ) := by
      rw [hdiff]; field_simp
    rw [hdiv, Int.floor_natCast] at hk
    omega
  · intro j hj hj1
    have hdiv : (end_dt - start_dt) / (m : ℚ) = (j : ℚ) := by
      rw [hj]; field_simp
    rw [hgrid, hdiv, Int.floor_natCast, Int.toNat_natCast]
    have hlen : ((List.range j).map
        (fun (k : ℕ) => start_dt + (k : ℚ) * (m : ℚ))).length = j := by
      simp
    rw [List.getLast?_eq_getElem?, hlen]
    have hjj : j - 1 < j := by omega
    rw [List.getElem?_map, List.getElem?_range hjj]
    have : start_dt + ((j - 1 : ℕ) : ℚ) * (m : ℚ) = end_dt - m := by
      have hjc : ((j - 1 : ℕ) : ℚ) = (j : ℚ) - 1 := by
        push_cast [Nat.cast_sub hj1]
        ring
      rw [hjc]
      have : end_dt = start_dt + (j : ℚ) * (m : ℚ) := by linarith
      rw [this]; ring
    simp [this]
  · intro hshort
    have hfloor : (⌊(end_dt - start_dt) / (m : ℚ)⌋).toNat = 0 := by
      have : (end_dt - start_dt) / (m : ℚ) < 1 := by
        rw [div_lt_one hmq]; linarith
      have h0 : ⌊(end_dt - start_dt) / (m : ℚ)⌋ < 1 := by
        exact_mod_cast Int.floor_lt.mpr (by exact_mod_cast this)
      omega
    have hempty : time_grid start_dt end_dt m = [] := by
      rw [hgrid, hfloor]
      rfl
    refine ⟨hempty, ?_⟩
    intro chart_at natal topic ra
    simp [find_elections, hempty]

/-- Witness for `time_grid_props` at `start = 0`, `end = 180`, step 60. -/
theorem time_grid_props_witness :
    (0 : ℕ) < 60 ∧ (180 : ℚ) ∉ time_grid 0 180 60 :=
  ⟨by norm_num, (time_grid_props 0 180 60 (by norm_num)).2.1⟩

/-- C10 counterexample: a range shorter than one step (30 minutes at step 60)
produces an empty grid, but the search does *not* produce an empty result:
`find_elections` raises —
`_convert_times_to_jd` calls `np.vectorize` on the size-0 time array (a
`ValueError` without `otypes`), and the logging f-string divides by
`len(times_arr)`; nothing catches either exception, so no result list is
returned at all. -/
theorem time_grid_empty_result_cex :
    time_grid 0 30 60 = []
      ∧ find_elections 0 30 60
          (fun _ => { long := fun _ => 0, speed := fun _ => 0, cusp := fun _ => 0,
                      asc := 0, mc := 0 })
          [] "trabajo" true
          = Except.error empty_grid_error := by
  have hempty : time_grid 0 30 60 = [] := by
    norm_num [time_grid, pytrunc]
  exact ⟨hempty, by simp [find_elections, hempty]⟩

/-- Looking up a key present in `bodies` in the association list built by
mapping each body to its record. -/
lemma lookup_map_pair {β : Type} (f : ℤ → β) :
    ∀ (bodies : List ℤ) (b : ℤ), b ∈ bodies →
      (bodies.map (fun x => (x, f x))).lookup b = some (f b) := by
  intro bodies
  induction bodies with
  | nil => intro b hb; cases hb
  | cons a l ih =>
      intro b hb
      by_cases hba : b = a
      · subst hba
        simp [List.lookup]
      · rcases List.mem_cons.mp hb with h | h
        · exact absurd h hba
        · have hne : (b == a) = false := beq_eq_false_iff_ne.mpr hba
          simp only [List.map_cons, List.lookup, hne]
          exact ih b h

/-- A successful `try_batch` has one row per input. -/
lemma try_batch_length (g : ℚ → Option (List ℚ)) :
    ∀ (jds : List ℚ) (res : List (List ℚ)),
      try_batch g jds = some res → res.length = jds.length := by
  intro jds
  induction jds with
  | nil => intro res h; rw [try_batch] at h; cases h; rfl
  | cons jd rest ih =>
      intro res h
      rw [try_batch] at h
      cases hg : g jd with
      | none => rw [hg] at h; cases h
      | some row =>
          cases hr : try_batch g rest with
          | none => rw [hg, hr] at h; cases h
          | some rows =>
              rw [hg, hr] at h
              cases h
              simp [ih rows hr]

/-- Every row of a successful `try_batch` came from a provider call. -/
lemma try_batch_rows (g : ℚ → Option (List ℚ)) :
    ∀ (jds : List ℚ) (res : List (List ℚ)), try_batch g jds = some res →
      ∀ row ∈ res, ∃ jd, g jd = some row := by
  intro jds
  induction jds with
  | nil =>
      intro res h
      rw [try_batch] at h
      cases h
      intro row hrow
      cases hrow
  | cons jd rest ih =>
      intro res h
      rw [try_batch] at h
      cases hg : g jd with
      | none => rw [hg] at h; cases h
      | some row0 =>
          cases hr : try_batch g rest with
          | none => rw [hg, hr] at h; cases h
          | some rows =>
              rw [hg, hr] at h
              cases h
              intro row hrow
              rcases List.mem_cons.mp hrow with h1 | h1
              · exact ⟨jd, h1 ▸ hg⟩
              · exact ih rows hr row h1

/-- C4: for every batch and every requested body set, the returned mapping
has an entry for every requested body; the entry always has one row per
instant with 6 columns per row (assuming the provider returns 6-tuples, as
`swe.calc_ut` does); and when the provider failed anywhere in that body's
batch, the entry is the zero-filled `(N × 6)` record, so the batch is not
aborted. -/
theorem ephemeris_zero_fill (provider : ℤ → ℚ → Option (List ℚ)) (to_jd : ℚ → ℚ)
    (times : List ℚ) (bodies : List ℤ) (b : ℤ) (hb : b ∈ bodies)
    (hshape : ∀ (b2 : ℤ) (jd : ℚ) (row : List ℚ),
      provider b2 jd = some row → row.length = 6) :
    ∃ rows, (calculate_positions provider to_jd times bodies).lookup b = some rows
      ∧ rows.length = times.length
      ∧ (∀ row ∈ rows, row.length = 6)
      ∧ (try_batch (provider b) (times.map to_jd) = none →
          rows = zeros_record times.length) := by
  rw [calculate_positions]
  rw [lookup_map_pair _ bodies b hb]
  refine ⟨_, rfl, ?_, ?_, ?_⟩
  · cases htb : try_batch (provider b) (times.map to_jd) with
    | none => simp [htb, zeros_record]
    | some body_data =>
        simp only [htb]
        rw [try_batch_length _ _ _ htb, List.length_map]
  · intro row hrow
    cases htb : try_batch (provider b) (times.map to_jd) with
    | none =>
        rw [htb] at hrow
        simp only [zeros_record] at hrow
        rcases List.eq_of_mem_replicate hrow with rfl
        simp
    | some body_data =>
        rw [htb] at hrow
        obtain ⟨jd, hjd⟩ := try_batch_rows _ _ _ htb row hrow
        exact hshape b jd row hjd
  · intro hnone
    simp [hnone, List.length_map]

/-- Witness for `ephemeris_zero_fill`: a provider that fails for body 4 on a
two-instant batch; body 4 is requested and gets the zero-filled 2 × 6 record. -/
theorem ephemeris_zero_fill_witness :
    (4 : ℤ) ∈ ([0, 4] : List ℤ)
      ∧ ∃ rows,
          (calculate_positions
              (fun b jd => if b = 4 then none else some [jd, 0, 1, 1, 0, 0])
              id [0, 1] [0, 4]).lookup 4 = some rows
          ∧ rows.length = ([0, 1] : List ℚ).length
          ∧ (∀ row ∈ rows, row.length = 6)
          ∧ (try_batch ((fun (b : ℤ) (jd : ℚ) =>
                if b = 4 then none else some [jd, 0, 1, 1, 0, 0]) 4)
                (([0, 1] : List ℚ).map id) = none →
              rows = zeros_record ([0, 1] : List ℚ).length) := by
  refine ⟨by decide, ?_⟩
  exact ephemeris_zero_fill
    (fun b jd => if b = 4 then none else some [jd, 0, 1, 1, 0, 0]) id [0, 1] [0, 4] 4
    (by decide)
    (by
      intro b2 jd row h
      dsimp only at h
      by_cases hb2 : b2 = 4
      · rw [if_pos hb2] at h; cases h
      · rw [if_neg hb2] at h
        cases h
        rfl)

/-- C8 counterexample: the topic string `"desconocido"` is not a key of the
topic table, yet the engine's topic resolution silently returns the
`"trabajo"` configuration instead of rejecting. -/
theorem unknown_topic_fallback_cex :
    THEMES.lookup "desconocido" = none
      ∧ get_theme_config "desconocido" = trabajo_theme
      ∧ (get_theme_config "desconocido").name_es = "Trabajo y Carrera" := by
  refine ⟨by decide, by decide, by decide⟩

/-- C8 amended: for every topic string whose lowercase form is not a key of
the `THEMES` table, the engine does not reject: `get_theme_config` silently
substitutes the default `"trabajo"` configuration, and `find_elections` on
that topic behaves exactly as a `"trabajo"` search.  (The request layer's
validator and the legacy `get_casa_for_tema` do reject unknown topics with a
descriptive error; the vectorized engine itself never does.) -/
theorem unknown_topic_fallback_amended (t : String)
    (h : THEMES.lookup (py_lower t) = none) :
    get_theme_config t = trabajo_theme
      ∧ ∀ (start_dt end_dt : ℚ) (m : ℕ) (chart_at : ℕ → Inst)
          (natal : List (ℤ × ℚ)) (ra : Bool),
          find_elections start_dt end_dt m chart_at natal t ra
            = find_elections start_dt end_dt m chart_at natal "trabajo" ra := by
  have h1 : get_theme_config t = trabajo_theme := by
    rw [get_theme_config, h]
    rfl
  refine ⟨h1, ?_⟩
  intro start_dt end_dt m chart_at natal ra
  have h2 : get_theme_config "trabajo" = trabajo_theme := by decide
  rw [find_elections, find_elections, h1, h2]

/-- Witness for `unknown_topic_fallback_amended` at the concrete unknown
topic `"desconocido"`. -/
theorem unknown_topic_fallback_witness :
    THEMES.lookup (py_lower "desconocido") = none
      ∧ get_theme_config "desconocido" = trabajo_theme :=
  ⟨by decide, (unknown_topic_fallback_amended "desconocido" (by decide)).1⟩

/-- Summing the detail values of a conditional singleton component. -/
lemma sum_opt_one (c : Prop) [Decidable c] (n : String) (v : ℚ) :
    (((if c then [(n, v)] else []).map Prod.snd).sum) = if c then v else 0 := by
  split_ifs <;> simp

/-- Summing the detail values of a conditional two-component block. -/
lemma sum_opt_two (c : Prop) [Decidable c] (n1 n2 : String) (v1 v2 : ℚ) :
    (((if c then [(n1, v1), (n2, v2)] else []).map Prod.snd).sum)
      = (if c then v1 else 0) + (if c then v2 else 0) := by
  split_ifs <;> simp

/-- Collapsing a nested guard into a conjunction. -/
lemma ite_collapse (c : Prop) [Decidable c] (d : Prop) [Decidable d] (v : ℚ) :
    (if c then (if d then v else 0) else 0) = if c ∧ d then v else 0 := by
  by_cases hc : c <;> by_cases hd : d <;> simp [hc, hd]

/-- C1 amended: the combinations score group is computed against the fixed
house 10 (and house 1 for the Ascendant-house penalties) for *every* search:
for all inputs the code's combinations score coincides with the
spec-modelled score instantiated at topic house 10, regardless of which
topic (and hence which target house) the search actually used. -/
theorem combinations_fixed_house_amended (ruler_asc_long ruler_h10_long : ℚ)
    (planet_long : ℤ → ℚ) (available : List ℤ) (cusp : ℕ → ℚ)
    (natal_asc_sign : Option ℤ) :
    calculate_combinations_score ruler_asc_long ruler_h10_long planet_long
        available cusp natal_asc_sign
      = combinations_score_per_spec 10 ruler_asc_long ruler_h10_long planet_long
          available cusp natal_asc_sign := by
  simp only [calculate_combinations_score, calculate_combinations_score_details,
    combinations_score_per_spec, List.map_append, List.sum_append, List.map_cons,
    List.map_nil, List.sum_cons, List.sum_nil, add_zero, sum_opt_one, sum_opt_two,
    ite_collapse, and_assoc, Bool.not_eq_true',
    show (10 : ℕ) - 1 = 9 from rfl]
  ring

/-- Transiting longitudes for the C1 counterexample: Sun 190° (house 7 under
the equal cusps below, not house 10), Moon 100°, Jupiter 100°, Mars 220°,
Saturn 150°. -/
def cex_comb_longs : ℤ → ℚ := fun pid =>
  if pid = 0 then 190 else if pid = 1 then 100 else if pid = 5 then 100
  else if pid = 6 then 150 else if pid = 4 then 220 else 0

/-- Equal house cusps for the C1 counterexample: cusp of house `i+1` at
`30 i` degrees. -/
def cex_comb_cusps : ℕ → ℚ := fun i => (30 : ℚ) * i

/-- C1 counterexample: for the topic `"amor"` (target house 7) there is a
chart where the Sun occupies house 7 but not house 10; the spec's reading
(+2 for Sun in the topic house) yields 2, the code yields 0 — the occupancy
tests are *not* evaluated against the topic's target house. -/
theorem combinations_fixed_house_cex :
    (get_theme_config "amor").target_house = 7
      ∧ calculate_combinations_score 100 250 cex_comb_longs engine_bodies
          cex_comb_cusps none = 0
      ∧ combinations_score_per_spec 7 100 250 cex_comb_longs engine_bodies
          cex_comb_cusps none = 2
      ∧ calculate_combinations_score 100 250 cex_comb_longs engine_bodies
          cex_comb_cusps none
        ≠ combinations_score_per_spec (get_theme_config "amor").target_house 100 250
            cex_comb_longs engine_bodies cex_comb_cusps none := by
  have htarget : (get_theme_config "amor").target_house = 7 := by decide
  have hcode : calculate_combinations_score 100 250 cex_comb_longs engine_bodies
      cex_comb_cusps none = 0 := by
    norm_num [calculate_combinations_score, calculate_combinations_score_details,
      cex_comb_longs, cex_comb_cusps, engine_bodies, in_house, mask_exact_aspect,
      calculate_aspects]
  have hspec : combinations_score_per_spec 7 100 250 cex_comb_longs engine_bodies
      cex_comb_cusps none = 2 := by
    norm_num [combinations_score_per_spec, cex_comb_longs, cex_comb_cusps,
      engine_bodies, in_house, mask_exact_aspect, calculate_aspects]
  refine ⟨htarget, hcode, hspec, ?_⟩
  rw [htarget, hcode, hspec]
  norm_num

/-- The chart used by the C2/C3 concrete instances: Saturn at 91° squares a
natal Sun at 1° exactly, while every engine rejection filter passes (Moon in
Aries and applying to Mercury before ingress, no new/full Moon, dignified
direct house-10 ruler, Mars and Saturn more than 5° from all four angles). -/
def cex_chart : Inst :=
  { long := fun pid =>
      if pid = 0 then 100 else if pid = 1 then 15 else if pid = 2 then 25
      else if pid = 3 then 200 else if pid = 4 then 250 else if pid = 5 then 210
      else if pid = 6 then 91 else if pid = 10 then 50 else 0,
    speed := fun _ => 1,
    cusp := fun i =>
      ([35, 65, 95, 125, 155, 185, 215, 245, 275, 125, 335, 5] : List ℚ).getD i 0,
    asc := 125, mc := 35 }

/-- The timestamp written into a result row is the processed instant. -/
lemma build_row_timestamp (inst : Inst) (t : ℚ) (th : ℕ) (natal : List (ℤ × ℚ))
    (v : Bool) : (build_row inst t th natal v).timestamp = t := rfl

/-- The validity flag written into a result row. -/
lemma build_row_is_valid (inst : Inst) (t : ℚ) (th : ℕ) (natal : List (ℤ × ℚ))
    (v : Bool) : (build_row inst t th natal v).is_valid = v := rfl

/-- C2 counterexample: with a natal Sun at 1°, transiting Saturn at 91° makes
an exact hard aspect (square) flagged by `mask_hard_aspects_to_natal_lights`,
yet the orchestrator (in strict mode, `return_all = False`) still accepts
that instant: the NatalLinkage mask is not consumed as a rejection filter. -/
theorem natal_filter_cex :
    mask_hard_aspects_to_natal_lights cex_chart.long engine_bodies
        [(0, 1)] [4, 6] = true
      ∧ (find_elections 0 60 60 (fun _ => cex_chart) [(0, 1)] "trabajo" false).map
          (List.map (fun r => (r.timestamp, r.is_valid))) = Except.ok [(0, true)] := by
  have hlook4 : List.lookup (4 : ℤ) RULER_MAP = some 0 := by decide
  have hnotbad : ¬((3 : ℤ) ∈ bad_signs 0) := by decide
  have hrej : moment_rejected cex_chart 10 = false := by
    norm_num [moment_rejected, cex_chart, mask_signs, sign_index, mask_phase,
      ORB_MOON_PHASE, calculate_aspects, mask_void_of_course, voc_target_bodies,
      voc_major_aspects, pymod, engine_bodies, mask_debility, get_ruler_for_sign,
      hlook4, hnotbad]
  have hlooksun : List.lookup (0 : ℤ) [((0 : ℤ), (1 : ℚ))] = some 1 := by decide
  have hlookmoon : List.lookup (1 : ℤ) [((0 : ℤ), (1 : ℚ))] = none := by decide
  constructor
  · norm_num [mask_hard_aspects_to_natal_lights, mask_transiting_aspect,
      natal_hard_angles, get_orb, engine_bodies, cex_chart, hlooksun, hlookmoon]
  · have htopic : (get_theme_config "trabajo").target_house = 10 := by decide
    have hgrid : time_grid 0 60 60 = [0] := by
      norm_num [time_grid, pytrunc, List.range_succ]
    norm_num [find_elections, hgrid, htopic, hrej, Except.map,
      List.range_succ, build_row_timestamp, build_row_is_valid]

/-- C2 amended: the orchestrator never consumes the NatalLinkage mask —
`is_bad_natal` is hard-coded all-`False` (the hard-aspect check is commented
out for legacy parity), so which instants are produced and their validity
flags are completely independent of the natal reference; instants with
malefic hard aspects to natal luminaries are not excluded. -/
theorem natal_filter_amended (start_dt end_dt : ℚ) (m : ℕ) (chart_at : ℕ → Inst)
    (topic : String) (ra : Bool) (natal1 natal2 : List (ℤ × ℚ)) :
    (find_elections start_dt end_dt m chart_at natal1 topic ra).map
        (List.map (fun r => (r.timestamp, r.is_valid)))
      = (find_elections start_dt end_dt m chart_at natal2 topic ra).map
          (List.map (fun r => (r.timestamp, r.is_valid))) := by
  by_cases hg : time_grid start_dt end_dt m = []
  · simp [find_elections, hg]
  · simp only [find_elections]
    rw [if_neg hg, if_neg hg]
    simp only [Except.map, List.map_map]
    rfl

/-- C3: with `return_all = True`, whenever the grid is nonempty the search
returns a result, and every returned result has exactly one row per grid
instant, in grid order; every row (also the rejected ones with
`is_valid = false`) carries the validity flag and the fully computed score
fields: total, per-group sub-scores, the normalized hybrid score, and the
sparse non-zero component map. -/
theorem return_all_one_row_per_instant (start_dt end_dt : ℚ) (m : ℕ)
    (chart_at : ℕ → Inst) (natal : List (ℤ × ℚ)) (topic : String) :
    (time_grid start_dt end_dt m ≠ [] →
        ∃ rows, find_elections start_dt end_dt m chart_at natal topic true
          = Except.ok rows)
      ∧ ∀ rows,
          find_elections start_dt end_dt m chart_at natal topic true = Except.ok rows →
          rows.length = (time_grid start_dt end_dt m).length
          ∧ ∀ k, k < (time_grid start_dt end_dt m).length →
              (rows.getD k default).timestamp
                  = (time_grid start_dt end_dt m).getD k 0
              ∧ (rows.getD k default).is_valid
                  = !(moment_rejected (chart_at k) (get_theme_config topic).target_house)
              ∧ (rows.getD k default).score_total
                  = (compute_scores (chart_at k) (get_theme_config topic).target_house natal).total
              ∧ (rows.getD k default).score_moon
                  = (compute_scores (chart_at k) (get_theme_config topic).target_house natal).moon
              ∧ (rows.getD k default).score_r_asc
                  = (compute_scores (chart_at k) (get_theme_config topic).target_house natal).r_asc
              ∧ (rows.getD k default).score_r_h10
                  = (compute_scores (chart_at k) (get_theme_config topic).target_house natal).r_h10
              ∧ (rows.getD k default).score_natal
                  = (compute_scores (chart_at k) (get_theme_config topic).target_house natal).natal
              ∧ (rows.getD k default).score_comb
                  = (compute_scores (chart_at k) (get_theme_config topic).target_house natal).comb
              ∧ (rows.getD k default).components
                  = (compute_scores (chart_at k) (get_theme_config topic).target_house natal).all_details.filter
                      (fun kv => decide ((0.001 : ℚ) < |kv.2|)) := by
  have hok : time_grid start_dt end_dt m ≠ [] →
      find_elections start_dt end_dt m chart_at natal topic true
        = Except.ok ((List.range (time_grid start_dt end_dt m).length).map
            (fun i => build_row (chart_at i)
              ((time_grid start_dt end_dt m).getD i 0)
              (get_theme_config topic).target_house natal
              (!(moment_rejected (chart_at i) (get_theme_config topic).target_house)))) := by
    intro hne
    simp only [find_elections]
    rw [if_neg hne]
    rfl
  refine ⟨fun hne => ⟨_, hok hne⟩, ?_⟩
  intro rows hrows
  by_cases hg : time_grid start_dt end_dt m = []
  · exfalso
    simp only [find_elections] at hrows
    rw [if_pos hg] at hrows
    exact Except.noConfusion hrows
  · rw [hok hg] at hrows
    injection hrows with hrows
    subst hrows
    constructor
    · simp
    · intro k hk
      have hget : ((List.range (time_grid start_dt end_dt m).length).map
          (fun i => build_row (chart_at i)
            ((time_grid start_dt end_dt m).getD i 0)
            (get_theme_config topic).target_house natal
            (!(moment_rejected (chart_at i) (get_theme_config topic).target_house)))).getD k default
          = build_row (chart_at k) ((time_grid start_dt end_dt m).getD k 0)
              (get_theme_config topic).target_house natal
              (!(moment_rejected (chart_at k) (get_theme_config topic).target_house)) := by
        rw [List.getD_eq_getElem?_getD, List.getElem?_map,
          List.getElem?_range hk]
        rfl
      rw [hget]
      exact ⟨rfl, rfl, rfl, rfl, rfl, rfl, rfl, rfl, rfl⟩

/-- The result rows of the witness search below (the `return_all` payload on
the concrete two-instant grid with the fixture chart). -/
def return_all_witness_rows : List Row :=
  (List.range (time_grid 0 120 60).length).map
    (fun i => build_row cex_chart ((time_grid 0 120 60).getD i 0)
      (get_theme_config "trabajo").target_house []
      (!(moment_rejected cex_chart (get_theme_config "trabajo").target_house)))

/-- Witness for `return_all_one_row_per_instant` on a concrete two-instant
grid with the fixture chart; instantiates the per-index clause at `k = 0`. -/
theorem return_all_one_row_witness :
    find_elections 0 120 60 (fun _ => cex_chart) [] "trabajo" true
        = Except.ok return_all_witness_rows
      ∧ return_all_witness_rows.length = (time_grid 0 120 60).length
      ∧ (return_all_witness_rows.getD 0 default).is_valid
          = !(moment_rejected cex_chart (get_theme_config "trabajo").target_house) := by
  have hne : time_grid 0 120 60 ≠ [] := by
    norm_num [time_grid, pytrunc, List.range_succ]
  have hok : find_elections 0 120 60 (fun _ => cex_chart) [] "trabajo" true
      = Except.ok return_all_witness_rows := by
    simp only [find_elections]
    rw [if_neg hne]
    rfl
  have h := (return_all_one_row_per_instant 0 120 60 (fun _ => cex_chart) [] "trabajo").2
    return_all_witness_rows hok
  have hlen : 0 < (time_grid 0 120 60).length := by
    norm_num [time_grid, pytrunc]
  exact ⟨hok, h.1, (h.2 0 hlen).2.1⟩

/-- C9 amended: for every evaluation oracle and every promising-moment list,
the list returned by the legacy strategy's phase 2 is sorted in descending
order by the two-level key (contextual score `scc`, then `puntuacion_total`)
and its length is at most the fixed maximum result count (25).  Phase 2
performs no deduplication by rounded timestamp (the helper
`_eliminar_duplicados_por_tiempo` exists in the module but is never called),
so duplicate-timestamp inputs survive to the output. -/
theorem fase2_sorted_truncated_amended (proc : ℚ → Option Momento)
    (momentos_prometedores : List ℚ) :
    (fase_2_enraizamiento proc momentos_prometedores).length ≤ MAX_RESULTADOS_FINALES
      ∧ List.Sorted fase_2_orden (fase_2_enraizamiento proc momentos_prometedores) := by
  constructor
  · rw [fase_2_enraizamiento]
    simp [Nat.min_le_left]
  · rw [fase_2_enraizamiento]
    exact List.Pairwise.sublist (List.take_sublist _ _)
      (List.sorted_insertionSort fase_2_orden _)

/-- The processed-moment fixture for the C9 counterexample. -/
def cex_momento : Momento :=
  { fecha_hora := 0, puntuacion_total := 50, enraizamiento_score := 1/2,
    enraizamiento_puro := some 2 }

/-- C9 counterexample: feeding phase 2 two promising moments with the same
timestamp produces a result list with two entries whose timestamps are equal
(also after rounding to the minute) — the claimed deduplication (keep the
higher-scoring duplicate) does not happen. -/
theorem fase2_no_dedup_cex :
    (fase_2_enraizamiento (fun _ => some cex_momento) [0, 0]).length = 2
      ∧ redondear_a_minuto
          (((fase_2_enraizamiento (fun _ => some cex_momento) [0, 0]).getD 0 default).fecha_hora)
        = redondear_a_minuto
          (((fase_2_enraizamiento (fun _ => some cex_momento) [0, 0]).getD 1 default).fecha_hora) := by
  have hout : fase_2_enraizamiento (fun _ => some cex_momento) [0, 0]
      = procesar_momentos_con_scc [cex_momento, cex_momento] := by
    rw [fase_2_enraizamiento]
    have hfm : ([(0 : ℚ), 0].filterMap (fun _ => some cex_momento))
        = [cex_momento, cex_momento] := by
      simp [List.filterMap]
    rw [hfm]
    have hsorted : List.insertionSort fase_2_orden
        (procesar_momentos_con_scc [cex_momento, cex_momento])
        = procesar_momentos_con_scc [cex_momento, cex_momento] := by
      rw [procesar_momentos_con_scc]
      simp only [List.map_cons, List.map_nil, List.insertionSort,
        List.orderedInsert]
      rw [if_pos]
      rw [fase_2_orden]
      exact Or.inr ⟨rfl, le_refl _⟩
    rw [hsorted]
    rfl
  rw [hout, procesar_momentos_con_scc]
  simp [redondear_a_minuto]

/-- Lower bound for the percentile scan: once the scan has passed `i ≥ 1`
values (all below `p`), its result is at least `((i − 1)/n) · 100`. -/
lemma rel_scan_lower (n : ℕ) :
    ∀ (l : List ℚ) (i : ℕ) (prev a : ℚ), prev < a → 1 ≤ i → i + l.length ≤ n →
      (((i : ℚ) - 1) / n) * 100 ≤ rel_scan n i prev a l := by
  intro l
  induction l with
  | nil =>
      intro i prev a hpa hi hlen
      rw [rel_scan]
      simp only [List.length_nil, Nat.add_zero] at hlen
      have hnq : (0 : ℚ) < n := by exact_mod_cast (by omega : 0 < n)
      have hin : ((i : ℚ) - 1) ≤ n := by
        have : (i : ℚ) ≤ n := by exact_mod_cast hlen
        linarith
      have h1 : ((i : ℚ) - 1) / n ≤ 1 := by
        rw [div_le_one hnq]; exact hin
      calc ((i : ℚ) - 1) / n * 100 ≤ 1 * 100 := by
            exact mul_le_mul_of_nonneg_right h1 (by norm_num)
        _ = 100 := by norm_num
  | cons v rest ih =>
      intro i prev a hpa hi hlen
      simp only [List.length_cons] at hlen
      have hnq : (0 : ℚ) < n := by exact_mod_cast (by omega : 0 < n)
      rw [rel_scan]
      by_cases hav : a ≤ v
      · rw [if_pos hav, if_neg (by omega : ¬ i = 0)]
        by_cases haev : a = v
        · rw [if_pos haev]
          have h1 : ((i : ℚ) - 1) ≤ (i : ℚ) := by linarith
          exact mul_le_mul_of_nonneg_right
            ((div_le_div_iff_of_pos_right hnq).mpr h1) (by norm_num)
        · rw [if_neg haev]
          have hprev_v : prev < v := lt_of_lt_of_le hpa hav
          have hvne : v ≠ prev := fun h => absurd (h ▸ hprev_v) (lt_irrefl _)
          rw [if_pos hvne]
          have halt : a < v := lt_of_le_of_ne hav haev
          have ht : 0 ≤ (a - prev) / (v - prev) :=
            div_nonneg (by linarith) (by linarith)
          have h1 : ((i : ℚ) - 1) ≤ ((i : ℚ) - 1) + (a - prev) / (v - prev) := by
            linarith
          exact mul_le_mul_of_nonneg_right
            ((div_le_div_iff_of_pos_right hnq).mpr h1) (by norm_num)
      · rw [if_neg hav]
        push_neg at hav
        have hrec := ih (i + 1) v a hav (by omega) (by omega)
        refine le_trans ?_ hrec
        have h1 : ((i : ℚ) - 1) ≤ ((i + 1 : ℕ) : ℚ) - 1 := by
          push_cast; linarith
        exact mul_le_mul_of_nonneg_right
          ((div_le_div_iff_of_pos_right hnq).mpr h1) (by norm_num)

/-- Monotonicity of the percentile scan in the probed value: whenever the
scan's invariant holds (`prev` lies strictly below the probed value once
`i ≥ 1`), a larger probe never gets a smaller percentile. -/
lemma rel_scan_mono (n : ℕ) :
    ∀ (l : List ℚ) (i : ℕ) (prev b a : ℚ), b ≤ a → (i = 0 ∨ prev < b) →
      i + l.length ≤ n → rel_scan n i prev b l ≤ rel_scan n i prev a l := by
  intro l
  induction l with
  | nil => intro i prev b a _ _ _; rw [rel_scan, rel_scan]
  | cons v rest ih =>
      intro i prev b a hba hinv hlen
      simp only [List.length_cons] at hlen
      have hnq : (0 : ℚ) < n := by exact_mod_cast (by omega : 0 < n)
      rw [rel_scan, rel_scan]
      by_cases hav : a ≤ v
      · have hbv : b ≤ v := le_trans hba hav
        rw [if_pos hav, if_pos hbv]
        by_cases hi : i = 0
        · rw [if_pos hi, if_pos hi]
        · rw [if_neg hi, if_neg hi]
          have hprev : prev < b := hinv.resolve_left hi
          by_cases hbev : b = v
          · have haev : a = v := le_antisymm hav (hbev ▸ hba)
            rw [if_pos hbev, if_pos haev]
          · rw [if_neg hbev]
            have hblt : b < v := lt_of_le_of_ne hbv hbev
            have hvne : v ≠ prev := fun h => absurd (h ▸ hblt) (asymm (h ▸ hprev))
            rw [if_pos hvne]
            have hvp : (0 : ℚ) < v - prev := by linarith
            by_cases haev : a = v
            · rw [if_pos haev]
              have ht1 : (b - prev) / (v - prev) ≤ 1 := by
                rw [div_le_one hvp]; linarith
              have h1 : ((i : ℚ) - 1) + (b - prev) / (v - prev) ≤ (i : ℚ) := by
                linarith
              exact mul_le_mul_of_nonneg_right
                ((div_le_div_iff_of_pos_right hnq).mpr h1) (by norm_num)
            · rw [if_neg haev, if_pos hvne]
              have ht : (b - prev) / (v - prev) ≤ (a - prev) / (v - prev) :=
                (div_le_div_iff_of_pos_right hvp).mpr (by linarith)
              have h1 : ((i : ℚ) - 1) + (b - prev) / (v - prev)
                  ≤ ((i : ℚ) - 1) + (a - prev) / (v - prev) := by linarith
              exact mul_le_mul_of_nonneg_right
                ((div_le_div_iff_of_pos_right hnq).mpr h1) (by norm_num)
      · rw [if_neg hav]
        push_neg at hav
        by_cases hbv : b ≤ v
        · rw [if_pos hbv]
          have hlow := rel_scan_lower n rest (i + 1) v a hav (by omega) (by omega)
          have hlow2 : ((i : ℚ) / n) * 100 ≤ rel_scan n (i + 1) v a rest := by
            refine le_trans (le_of_eq ?_) hlow
            push_cast
            ring_nf
          refine le_trans ?_ hlow2
          by_cases hi : i = 0
          · rw [if_pos hi, hi]
            positivity
          · rw [if_neg hi]
            have hprev : prev < b := hinv.resolve_left hi
            by_cases hbev : b = v
            · rw [if_pos hbev]
            · rw [if_neg hbev]
              have hblt : b < v := lt_of_le_of_ne hbv hbev
              have hvne : v ≠ prev := fun h => absurd (h ▸ hblt) (asymm (h ▸ hprev))
              rw [if_pos hvne]
              have hvp : (0 : ℚ) < v - prev := by linarith
              have ht1 : (b - prev) / (v - prev) ≤ 1 := by
                rw [div_le_one hvp]; linarith
              have h1 : ((i : ℚ) - 1) + (b - prev) / (v - prev) ≤ (i : ℚ) := by
                linarith
              exact mul_le_mul_of_nonneg_right
                ((div_le_div_iff_of_pos_right hnq).mpr h1) (by norm_num)
        · push_neg at hbv
          rw [if_neg (not_le.mpr hbv)]
          exact ih (i + 1) v b a hba (Or.inr hbv) (by omega)

/-- C6: percentile (relative) normalization is monotonic: for every reference
batch and every pair of raw totals `raw_b < raw_a` evaluated against the same
batch, `relative_pct raw_a ≥ relative_pct raw_b`. -/
theorem relative_pct_monotone (valores : List ℚ) (raw_a raw_b : ℚ)
    (h : raw_b < raw_a) :
    calcular_componente_relativo raw_b valores
      ≤ calcular_componente_relativo raw_a valores := by
  rw [calcular_componente_relativo, calcular_componente_relativo]
  by_cases hV : valores = []
  · rw [if_pos hV, if_pos hV]
  · rw [if_neg hV, if_neg hV]
    have hlen : (List.insertionSort (· ≤ ·) valores).length = valores.length :=
      (List.perm_insertionSort _ _).length_eq
    exact rel_scan_mono valores.length (List.insertionSort (· ≤ ·) valores)
      0 0 raw_b raw_a h.le (Or.inl rfl) (by rw [hlen]; omega)

/-- Witness for `relative_pct_monotone` at a concrete batch and pair. -/
theorem relative_pct_monotone_witness :
    (1 : ℚ) < 2
      ∧ calcular_componente_relativo 1 [0, 1, 2, 3]
          ≤ calcular_componente_relativo 2 [0, 1, 2, 3] :=
  ⟨by norm_num, relative_pct_monotone [0, 1, 2, 3] 2 1 (by norm_num)⟩

end CartaElectiva
